import Mathlib

/-!
Shallow embedding of the two UI controllers of this repository:
- `ProductMediaGalleryMainThumbnails` (src/unnamed/part_000): product media
  gallery with a thumbnail carousel;
- `SizeGuideDrawer` (src/assets/size-guide-drawer.js): size-guide drawer
  overlay.

DOM elements are modelled as records of the attributes, classes and child
nodes the code reads or writes; `querySelector` calls become `Option`-valued
field reads; a JavaScript null dereference (TypeError) is an `Except.error`.
Pixel quantities are `Int`.
-/

namespace Gallery

/-- A bounding client rectangle; only `left` and `right` are read by the
gallery code (`getBoundingClientRect`). -/
structure Rect where
  left : Int
  right : Int
deriving DecidableEq

/-- A `.thumbnail-item` element: whether its class list contains `active`,
and its bounding rectangle. -/
structure Thumb where
  active : Bool
  rect : Rect
deriving DecidableEq

/-- The `.product-media-container__zoom-button` element: its `on:click`
attribute and its `data-current-index` attribute. -/
structure ZoomButton where
  onClick : Option String
  dataCurrentIndex : Option String
deriving DecidableEq

/-- A media content node (`.product-media-constraint-wrapper` or
`.product-media`); `id` abstracts the node's content identity. -/
structure MediaNode where
  id : Nat
deriving DecidableEq

/-- The `.product-media-container` element inside the main image container:
possibly a zoom button and possibly a media content node. -/
structure PMContainer where
  zoomButton : Option ZoomButton
  mediaContent : Option MediaNode
deriving DecidableEq

/-- The `.main-image-container` element; `querySelector('.product-media-container')`
is the `pmc` field. -/
structure MainImage where
  pmc : Option PMContainer
deriving DecidableEq

/-- A child of the `.hidden-media` pool carrying a `data-media-index`
attribute and (possibly) an inner media content node. -/
structure HiddenItem where
  mediaIndex : Nat
  content : Option MediaNode
deriving DecidableEq

/-- The mutable state of one `ProductMediaGalleryMainThumbnails` instance:
its thumbnail items, `currentIndex`, the optional main image container, the
optional `.hidden-media` pool, and the scroll wrapper's bounding rectangle. -/
structure GalleryState where
  thumbnailItems : List Thumb
  currentIndex : Nat
  mainImageContainer : Option MainImage
  hiddenMedia : Option (List HiddenItem)
  wrapperRect : Rect
deriving DecidableEq

/-- `l[i] = f(l[i])` when `i` is in range, `l` unchanged otherwise; models
`this.thumbnailItems[i]?.classList...` (optional chaining is a no-op on a
missing element). -/
def modifyIdx (l : List Thumb) (i : Nat) (f : Thumb → Thumb) : List Thumb :=
  match l, i with
  | [], _ => []
  | t :: rest, 0 => f t :: rest
  | t :: rest, n + 1 => t :: modifyIdx rest n f

/-- Replace the first occurrence of `/open/<digits>` in a character list by
`/open/<idx>`; models `onClickAttr.replace(/\/open\/\d+/, ... )` (a
non-global JavaScript regex replace rewrites only the first match, with the
`\d+` run taken greedily). At each position the regex engine either matches
the 6-character literal `/open/` followed by at least one digit, or moves
one character forward. -/
def replaceOpenIdx (idx : Nat) : List Char → List Char
  | [] => []
  | c :: rest =>
    match c :: rest with
    | '/' :: 'o' :: 'p' :: 'e' :: 'n' :: '/' :: d :: tail =>
      if d.isDigit then
        '/' :: 'o' :: 'p' :: 'e' :: 'n' :: '/' ::
          ((toString idx).toList ++ tail.dropWhile Char.isDigit)
      else c :: replaceOpenIdx idx rest
    | _ => c :: replaceOpenIdx idx rest

/-- String version of `replaceOpenIdx`. -/
def replaceOpen (idx : Nat) (s : String) : String :=
  String.mk (replaceOpenIdx idx s.toList)

/-- `ensureThumbnailVisible(index)`: returns `some amount` when the code
calls `scrollBy({left: amount})`, `none` when it does not scroll. Mirrors
the source: missing thumbnail returns; left-edge overflow scrolls by
`thumbnailRect.left - containerRect.left - 10`; otherwise right-edge
overflow scrolls by `thumbnailRect.right - containerRect.right + 10`. -/
def ensureThumbnailVisible (g : GalleryState) (index : Nat) : Option Int :=
  match g.thumbnailItems[index]? with
  | none => none
  | some thumbnail =>
    if thumbnail.rect.left < g.wrapperRect.left then
      some (thumbnail.rect.left - g.wrapperRect.left - 10)
    else if thumbnail.rect.right > g.wrapperRect.right then
      some (thumbnail.rect.right - g.wrapperRect.right + 10)
    else
      none

/-- `switchMainImage(index)`. `Except.error` models a thrown `TypeError`
(the source dereferences `this.hiddenMedia` and `mainImageContent` without
null checks). On success returns the new state and the scroll amount fired
by the trailing `ensureThumbnailVisible` call. `cloneNode(true)` is the
identity on our by-value media nodes. -/
def switchMainImage (g : GalleryState) (index : Nat) :
    Except String (GalleryState × Option Int) :=
  if index = g.currentIndex then .ok (g, none)
  else
    -- Update active thumbnail (optional chaining tolerates missing items)
    let thumbs1 := modifyIdx g.thumbnailItems g.currentIndex
      (fun t => { t with active := false })
    let thumbs2 := modifyIdx thumbs1 index (fun t => { t with active := true })
    -- `this.hiddenMedia.querySelector(...)` throws when hiddenMedia is null
    match g.hiddenMedia with
    | none => .error "TypeError: this.hiddenMedia is null"
    | some items =>
      let newMediaElement := items.find? (fun h => h.mediaIndex = index)
      match newMediaElement, g.mainImageContainer with
      | some nme, some mic =>
        -- `mainImageContent.querySelector(...)` throws when the
        -- `.product-media-container` lookup returned null
        match mic.pmc with
        | none => .error "TypeError: mainImageContent is null"
        | some pmc =>
          let existingZoomButton := pmc.zoomButton
          let pmc1 :=
            match pmc.mediaContent with
            | some _ =>
              match nme.content with
              | some newMediaContent => { pmc with mediaContent := some newMediaContent }
              | none => pmc
            | none => pmc
          let pmc2 :=
            match existingZoomButton with
            | some zb =>
              let zb1 :=
                match zb.onClick with
                | some attr => { zb with onClick := some (replaceOpen index attr) }
                | none => zb
              { pmc1 with zoomButton := some ({ zb1 with dataCurrentIndex := some (toString index) }) }
            | none => pmc1
          let g1 : GalleryState :=
            { g with thumbnailItems := thumbs2,
                     mainImageContainer := some { mic with pmc := some pmc2 },
                     currentIndex := index }
          .ok (g1, ensureThumbnailVisible g1 index)
      | _, _ =>
        let g1 : GalleryState := { g with thumbnailItems := thumbs2, currentIndex := index }
        .ok (g1, ensureThumbnailVisible g1 index)

/-- The prev/next navigation buttons: `none` when the button element is
absent, `some disabled` when present. -/
structure NavButtons where
  prevBtn : Option Bool
  nextBtn : Option Bool
deriving DecidableEq

/-- `updateNavigationState()`: returns early unless both buttons exist, then
sets `prev.disabled = scrollLeft <= 0` and
`next.disabled = scrollLeft >= maxScroll - 1` with
`maxScroll = scrollWidth - clientWidth`. -/
def updateNavigationState (nav : NavButtons)
    (scrollLeft scrollWidth clientWidth : Int) : NavButtons :=
  match nav.prevBtn, nav.nextBtn with
  | some _, some _ =>
    let maxScroll := scrollWidth - clientWidth
    { prevBtn := some (decide (scrollLeft ≤ 0)),
      nextBtn := some (decide (scrollLeft ≥ maxScroll - 1)) }
  | _, _ => nav

/-- JavaScript `parseInt(s)` (radix unspecified): skip leading whitespace,
optional sign, then a leading run of decimal digits — or hexadecimal digits
after a `0x`/`0X` prefix; `none` models `NaN` (no digits found). -/
def jsParseInt (s : String) : Option Int :=
  let cs := s.toList.dropWhile Char.isWhitespace
  let signed : Bool × List Char :=
    match cs with
    | '-' :: r => (true, r)
    | '+' :: r => (false, r)
    | _ => (false, cs)
  let digits : List Char → Option Nat := fun l =>
    let ds := l.takeWhile Char.isDigit
    if ds.isEmpty then none
    else some (ds.foldl (fun a c => a * 10 + (c.toNat - 48)) 0)
  let hexDigits : List Char → Option Nat := fun l =>
    let ds := l.takeWhile (fun c =>
      c.isDigit ∨ ('a' ≤ c ∧ c ≤ 'f') ∨ ('A' ≤ c ∧ c ≤ 'F'))
    if ds.isEmpty then none
    else some (ds.foldl (fun a c =>
      a * 16 + (if c.isDigit then c.toNat - 48
                else if 'a' ≤ c then c.toNat - 87 else c.toNat - 55)) 0)
  let mag : Option Nat :=
    match signed.2 with
    | '0' :: 'x' :: r => hexDigits r
    | '0' :: 'X' :: r => hexDigits r
    | _ => digits signed.2
  mag.map (fun n => if signed.1 then -(n : Int) else (n : Int))

/-- `parseInt(getComputedStyle(container).getPropertyValue(prop)) || dflt`:
the fallback fires whenever `parseInt` yields `NaN` **or `0`** (both are
falsy). An absent custom property reads as the empty string. -/
def cssIntOr (value : String) (dflt : Int) : Int :=
  match jsParseInt value with
  | none => dflt
  | some n => if n = 0 then dflt else n

/-- The three layout fields read in the constructor. -/
structure GalleryConfig where
  thumbnailsPerView : Int
  thumbnailSize : Int
  thumbnailGap : Int
deriving DecidableEq

/-- The constructor lines
`this.thumbnailsPerView = parseInt(...getPropertyValue('--thumbnails-per-view')) || 3`
(and the analogous lines for `--thumbnail-size` / `--thumbnail-gap`),
applied to the raw custom-property strings. -/
def galleryConfigOfCSS (perView size gap : String) : GalleryConfig :=
  { thumbnailsPerView := cssIntOr perView 3,
    thumbnailSize := cssIntOr size 100,
    thumbnailGap := cssIntOr gap 10 }

end Gallery

namespace Drawer

/-- Where a relocatable element (drawer panel / backdrop) currently lives:
inside the original `details` element or inside the body-level
`.size-guide-drawer-wrapper`. -/
inductive Loc where
  | inDetails
  | inWrapper
deriving DecidableEq

/-- The state of one `SizeGuideDrawer` component together with the document
pieces it mutates. `querySelector('summary')` is modelled by `hasSummary`;
`ariaExpanded` is that summary's `aria-expanded` attribute. `detailsOpen`
is the `open` attribute, `detailsMenuOpen` / `wrapperMenuOpen` the
`menu-open` class on the details element and on `#drawerWrapper`.
`drawerLoc` / `backdropLoc` are `none` when the element does not exist in
the markup at all. `backdropListeners` / `closeListeners` count the click
handlers currently attached to the backdrop and the close button (each
`open()` attaches fresh closures); `boundBackdropClick` / `boundCloseClick`
model the private handle fields being non-null. `trapActive` models the
focus trap installed by `trapFocus` / removed by `removeTrapFocus`. -/
structure DrawerState where
  hasSummary : Bool
  ariaExpanded : String
  detailsOpen : Bool
  detailsMenuOpen : Bool
  wrapperPresent : Bool
  wrapperMenuOpen : Bool
  wrapperPointerEvents : String
  drawerLoc : Option Loc
  backdropLoc : Option Loc
  hasCloseButton : Bool
  bodyOverflow : String
  backdropListeners : Nat
  closeListeners : Nat
  boundBackdropClick : Bool
  boundCloseClick : Bool
  trapActive : Bool
deriving DecidableEq

/-- The synchronous body of `open(event)` (the single-details component, so
`#getDetailsElement` always resolves to `refs.details`). Returns the new
state and whether the `requestAnimationFrame` callback was scheduled; a
missing summary returns before any mutation. `details.querySelector` finds
the drawer/backdrop only while they are children of the details element;
`appendChild(null)` (drawer found but backdrop already moved or absent)
throws. -/
def openSync (s : DrawerState) : Except String (DrawerState × Bool) :=
  if ¬ s.hasSummary then .ok (s, false)
  else
    let s1 := { s with ariaExpanded := "true", detailsOpen := true, bodyOverflow := "hidden" }
    let drawerInDetails := s1.drawerLoc = some Loc.inDetails
    let backdropInDetails := s1.backdropLoc = some Loc.inDetails
    if s1.wrapperPresent ∧ drawerInDetails then
      if ¬ backdropInDetails then
        .error "TypeError: appendChild argument is not a Node"
      else
        .ok ({ s1 with
          wrapperPointerEvents := "auto",
          backdropLoc := some Loc.inWrapper,
          drawerLoc := some Loc.inWrapper,
          backdropListeners := s1.backdropListeners + 1,
          boundBackdropClick := true,
          closeListeners := if s1.hasCloseButton then s1.closeListeners + 1 else s1.closeListeners,
          boundCloseClick := if s1.hasCloseButton then true else s1.boundCloseClick }, true)
    else
      .ok (s1, true)

/-- The `requestAnimationFrame` callback of `open()`: adds the `menu-open`
class to the details element and (if present) to the wrapper, and schedules
the open-animation-end callback. -/
def openRAF (s : DrawerState) : DrawerState :=
  { s with detailsMenuOpen := true,
           wrapperMenuOpen := if s.wrapperPresent then true else s.wrapperMenuOpen }

/-- The open-animation-end callback: `trapFocus(this.#drawerWrapper || details)`. -/
def openAnimEnd (s : DrawerState) : DrawerState :=
  { s with trapActive := true }

/-- What the `#close` animation-end closure captured at call time:
`this.#drawerWrapper?.querySelector('.size-guide-drawer')` and the
analogous backdrop lookup (non-null iff the wrapper exists and the element
currently lives inside it). -/
structure CloseCapture where
  drawerFound : Bool
  backdropFound : Bool
deriving DecidableEq

/-- The synchronous body of `#close(details)`: sets `aria-expanded` to
`'false'` when a summary exists, removes the `menu-open` class from the
details element and the wrapper, clears the body `overflow` style, and
unconditionally schedules the animation-end callback with the captured
drawer/backdrop lookups. There is no guard on `isOpen`. -/
def closeSync (s : DrawerState) : DrawerState × CloseCapture :=
  let s1 := { s with
    ariaExpanded := if s.hasSummary then "false" else s.ariaExpanded,
    detailsMenuOpen := false,
    wrapperMenuOpen := if s.wrapperPresent then false else s.wrapperMenuOpen,
    bodyOverflow := "" }
  (s1, { drawerFound := s1.wrapperPresent ∧ s1.drawerLoc = some Loc.inWrapper,
         backdropFound := s1.wrapperPresent ∧ s1.backdropLoc = some Loc.inWrapper })

/-- The animation-end callback of `#close`: moves the captured drawer and
backdrop back under the details element, removes the click handlers held in
the bound fields and nulls those fields, disables wrapper pointer events,
then `reset(details)` (drop `menu-open`, drop the `open` attribute, set the
summary's `aria-expanded` to `'false'`) and `removeTrapFocus()`. -/
def closeAnimEnd (s : DrawerState) (cap : CloseCapture) : DrawerState :=
  let s1 :=
    if cap.drawerFound then
      let sa := if s.hasCloseButton ∧ s.boundCloseClick then
          { s with closeListeners := s.closeListeners - 1 }
        else s
      { sa with boundCloseClick := false, drawerLoc := some Loc.inDetails }
    else s
  let s2 :=
    if cap.backdropFound then
      let sb := if s1.boundBackdropClick then
          { s1 with backdropListeners := s1.backdropListeners - 1 }
        else s1
      { sb with boundBackdropClick := false, backdropLoc := some Loc.inDetails }
    else s1
  let s3 := if s2.wrapperPresent then { s2 with wrapperPointerEvents := "none" } else s2
  let s4 := { s3 with
    detailsMenuOpen := false,
    detailsOpen := false,
    ariaExpanded := if s3.hasSummary then "false" else s3.ariaExpanded }
  { s4 with trapActive := false }

/-- `open()` with both asynchronous callbacks (animation frame, then
open-animation end) already fired. -/
def openFull (s : DrawerState) : Except String DrawerState :=
  match openSync s with
  | .error e => .error e
  | .ok (s1, raf) => .ok (if raf then openAnimEnd (openRAF s1) else s1)

/-- `close()` with the close-animation-end callback already fired. -/
def closeFull (s : DrawerState) : DrawerState :=
  let p := closeSync s
  closeAnimEnd p.1 p.2

/-- `#onKeyUp`: ignores every key except `Escape`; on `Escape` runs the
synchronous part of `#close` (in the single-details component the closest
details element is `refs.details`) and schedules its animation-end
callback (`some capture`). -/
def onKeyUp (key : String) (s : DrawerState) : DrawerState × Option CloseCapture :=
  if key ≠ "Escape" then (s, none)
  else
    let p := closeSync s
    (p.1, some p.2)

/-- A backdrop click runs every attached handler; each handler is
`() => this.close()`, so the number of times `close()` fires equals the
number of attached backdrop listeners. -/
def backdropClickFires (s : DrawerState) : Nat :=
  s.backdropListeners

/-- A fully-equipped drawer component in the pristine closed state: summary
and wrapper present, drawer panel (with close button) and backdrop children
of the details element, no scroll lock, no listeners, no focus trap. -/
def pristineClosed : DrawerState :=
  { hasSummary := true, ariaExpanded := "false", detailsOpen := false,
    detailsMenuOpen := false, wrapperPresent := true, wrapperMenuOpen := false,
    wrapperPointerEvents := "none", drawerLoc := some Loc.inDetails,
    backdropLoc := some Loc.inDetails, hasCloseButton := true, bodyOverflow := "",
    backdropListeners := 0, closeListeners := 0, boundBackdropClick := false,
    boundCloseClick := false, trapActive := false }

/-- A drawer component whose details element has no summary child. -/
def noSummaryState : DrawerState :=
  { pristineClosed with hasSummary := false, ariaExpanded := "unset" }

end Drawer

namespace Gallery

/-- A gallery whose main image container exists but contains no
`.product-media-container` node, while the hidden-media pool has a node
tagged with index 1. -/
def missingPMCGallery : GalleryState :=
  { thumbnailItems := [⟨true, ⟨0, 50⟩⟩, ⟨false, ⟨50, 100⟩⟩],
    currentIndex := 0,
    mainImageContainer := some ⟨none⟩,
    hiddenMedia := some [⟨1, some ⟨42⟩⟩],
    wrapperRect := ⟨0, 100⟩ }

/-- A gallery with three thumbnails and an empty hidden-media pool. -/
def threeThumbGallery : GalleryState :=
  { thumbnailItems := [⟨true, ⟨0, 30⟩⟩, ⟨false, ⟨30, 60⟩⟩, ⟨false, ⟨60, 90⟩⟩],
    currentIndex := 0,
    mainImageContainer := none,
    hiddenMedia := some [],
    wrapperRect := ⟨0, 100⟩ }

/-- `threeThumbGallery` after `switchMainImage(5)`: the first thumbnail
lost its `active` class and `currentIndex` became 5. -/
def threeThumbGalleryAfter5 : GalleryState :=
  { threeThumbGallery with
    thumbnailItems := [⟨false, ⟨0, 30⟩⟩, ⟨false, ⟨30, 60⟩⟩, ⟨false, ⟨60, 90⟩⟩],
    currentIndex := 5 }

/-- A gallery whose single thumbnail is wider than the scroll wrapper: its
left edge overflows on the left *and* its right edge overflows on the
right. -/
def wideThumbGallery : GalleryState :=
  { thumbnailItems := [⟨true, ⟨-5, 200⟩⟩],
    currentIndex := 0,
    mainImageContainer := none,
    hiddenMedia := none,
    wrapperRect := ⟨0, 100⟩ }

/-- A gallery with one thumbnail fully inside the wrapper and a hidden-media
pool with nodes for both indices (used to instantiate universally quantified
theorems). -/
def twoThumbGallery : GalleryState :=
  { thumbnailItems := [⟨true, ⟨0, 40⟩⟩, ⟨false, ⟨40, 80⟩⟩],
    currentIndex := 0,
    mainImageContainer := none,
    hiddenMedia := some [⟨0, some ⟨0⟩⟩, ⟨1, some ⟨1⟩⟩],
    wrapperRect := ⟨0, 100⟩ }

/-- `twoThumbGallery` after `switchMainImage(1)`: the active marker moved
from thumbnail 0 to thumbnail 1 and `currentIndex` became 1. -/
def twoThumbGalleryAfter1 : GalleryState :=
  { twoThumbGallery with
    thumbnailItems := [⟨false, ⟨0, 40⟩⟩, ⟨true, ⟨40, 80⟩⟩],
    currentIndex := 1 }

/-- A gallery whose `.product-media-container` exists and holds a zoom
button, but whose inner `.product-media-constraint-wrapper, .product-media`
node is absent; the hidden-media pool has a node tagged with index 1. -/
def missingWrapperGallery : GalleryState :=
  { thumbnailItems := [⟨true, ⟨0, 40⟩⟩, ⟨false, ⟨40, 80⟩⟩],
    currentIndex := 0,
    mainImageContainer := some ⟨some ⟨some ⟨some "modal/open/0", some "0"⟩, none⟩⟩,
    hiddenMedia := some [⟨1, some ⟨7⟩⟩],
    wrapperRect := ⟨0, 100⟩ }

/-- `missingWrapperGallery` after `switchMainImage(1)`: the media content
was not replaced (there was none), but the zoom button's `on:click` and
`data-current-index` attributes were rewritten to the new index — a DOM
mutation beyond the thumbnail active markers. -/
def missingWrapperGalleryAfter : GalleryState :=
  { missingWrapperGallery with
    thumbnailItems := [⟨false, ⟨0, 40⟩⟩, ⟨true, ⟨40, 80⟩⟩],
    mainImageContainer := some ⟨some ⟨some ⟨some "modal/open/1", some "1"⟩, none⟩⟩,
    currentIndex := 1 }

/-- A gallery with no main image container and no `.hidden-media` pool
element at all (`this.hiddenMedia` is null). -/
def noPoolGallery : GalleryState :=
  { thumbnailItems := [⟨true, ⟨0, 40⟩⟩],
    currentIndex := 0,
    mainImageContainer := none,
    hiddenMedia := none,
    wrapperRect := ⟨0, 100⟩ }

theorem modifyIdx_length (l : List Thumb) (i : Nat) (f : Thumb → Thumb) :
    (modifyIdx l i f).length = l.length := by
  induction l generalizing i with
  | nil => rfl
  | cons t rest ih =>
    cases i with
    | zero => rfl
    | succ n => simp [modifyIdx, ih]

theorem modifyIdx_getElem (l : List Thumb) (i : Nat) (f : Thumb → Thumb) (j : Nat) :
    (modifyIdx l i f)[j]? = if j = i then (l[j]?).map f else l[j]? := by
  induction l generalizing i j with
  | nil => simp [modifyIdx]
  | cons t rest ih =>
    cases i with
    | zero =>
      cases j with
      | zero => simp [modifyIdx]
      | succ m => simp [modifyIdx]
    | succ n =>
      cases j with
      | zero => simp [modifyIdx]
      | succ m => simpa [modifyIdx] using ih n m

/-- `modifyIdx` with a rect-preserving function does not change any
thumbnail's rectangle. -/
theorem modifyIdx_map_rect (l : List Thumb) (i : Nat) (f : Thumb → Thumb)
    (hf : ∀ t, (f t).rect = t.rect) (j : Nat) :
    ((modifyIdx l i f)[j]?).map Thumb.rect = (l[j]?).map Thumb.rect := by
  rw [modifyIdx_getElem]
  split_ifs with h
  · cases l[j]? <;> simp [hf]
  · rfl

/-- Any successful `switchMainImage` call preserves the number of thumbnail
items, and either left the state untouched (the `index == currentIndex`
early return) or stored its argument in `currentIndex`. -/
theorem switchMainImage_ok_shape (g : GalleryState) (index : Nat)
    (g' : GalleryState) (sc : Option Int)
    (hok : switchMainImage g index = .ok (g', sc)) :
    g'.thumbnailItems.length = g.thumbnailItems.length ∧
    (g' = g ∨ g'.currentIndex = index) := by
  unfold switchMainImage at hok
  by_cases heq : index = g.currentIndex
  · rw [if_pos heq] at hok
    simp only [Except.ok.injEq, Prod.mk.injEq] at hok
    obtain ⟨hg, _⟩ := hok
    subst hg
    exact ⟨rfl, Or.inl rfl⟩
  · rw [if_neg heq] at hok
    cases hhm : g.hiddenMedia with
    | none => simp [hhm] at hok
    | some items =>
      simp only [hhm] at hok
      cases hfind : items.find? (fun h => h.mediaIndex = index) with
      | none =>
        simp only [hfind, Except.ok.injEq, Prod.mk.injEq] at hok
        obtain ⟨hg, _⟩ := hok
        subst hg
        exact ⟨by simp [modifyIdx_length], Or.inr rfl⟩
      | some nme =>
        simp only [hfind] at hok
        cases hmic : g.mainImageContainer with
        | none =>
          simp only [hmic, Except.ok.injEq, Prod.mk.injEq] at hok
          obtain ⟨hg, _⟩ := hok
          subst hg
          exact ⟨by simp [modifyIdx_length], Or.inr rfl⟩
        | some mic =>
          simp only [hmic] at hok
          cases hpmc : mic.pmc with
          | none => simp [hpmc] at hok
          | some pmc =>
            simp only [hpmc, Except.ok.injEq, Prod.mk.injEq] at hok
            obtain ⟨hg, _⟩ := hok
            subst hg
            exact ⟨by simp [modifyIdx_length], Or.inr rfl⟩

/-- Explicit result of `switchMainImage` when the main image container is
absent and the hidden-media pool is present: only the active markers and
`currentIndex` change. -/
theorem switchMainImage_no_main_container
    (g : GalleryState) (index : Nat) (items : List HiddenItem)
    (hhm : g.hiddenMedia = some items)
    (hmic : g.mainImageContainer = none)
    (hne : ¬ index = g.currentIndex) :
    switchMainImage g index = .ok
      ({ g with
          thumbnailItems := modifyIdx
            (modifyIdx g.thumbnailItems g.currentIndex (fun t => { t with active := false }))
            index (fun t => { t with active := true }),
          currentIndex := index },
        ensureThumbnailVisible
          { g with
            thumbnailItems := modifyIdx
              (modifyIdx g.thumbnailItems g.currentIndex (fun t => { t with active := false }))
              index (fun t => { t with active := true }),
            currentIndex := index } index) := by
  unfold switchMainImage
  rw [if_neg hne]
  simp only [hhm]
  cases hfind : items.find? (fun h => h.mediaIndex = index) with
  | none => simp only [hfind]
  | some nme => simp only [hfind, hmic]

end Gallery

/-- C7: calling `switchMainImage` with the currently active index is a
complete no-op — the early return fires before any DOM mutation, so the
state is unchanged and no scroll is triggered. -/
theorem C7_switchMainImage_currentIndex_noop (g : Gallery.GalleryState) :
    Gallery.switchMainImage g g.currentIndex = .ok (g, none) := by
  simp [Gallery.switchMainImage]

/-- C3: with both navigation buttons present, `updateNavigationState`
disables the prev button iff `scrollLeft ≤ 0` and the next button iff
`scrollLeft ≥ scrollWidth − clientWidth − 1`. -/
theorem C3_updateNavigationState_disabled_iff
    (nav : Gallery.NavButtons) (scrollLeft scrollWidth clientWidth : Int)
    (hp : nav.prevBtn.isSome = true) (hn : nav.nextBtn.isSome = true) :
    ((Gallery.updateNavigationState nav scrollLeft scrollWidth clientWidth).prevBtn = some true
        ↔ scrollLeft ≤ 0) ∧
    ((Gallery.updateNavigationState nav scrollLeft scrollWidth clientWidth).nextBtn = some true
        ↔ scrollLeft ≥ scrollWidth - clientWidth - 1) := by
  obtain ⟨p, n⟩ := nav
  cases p with
  | none => simp at hp
  | some pb =>
    cases n with
    | none => simp at hn
    | some nb => constructor <;> simp [Gallery.updateNavigationState]

/-- Witness for C3: at scroll offset 0 with scrollable width 300 and
visible width 100, prev is disabled and next is not. -/
theorem C3_witness :
    ((Gallery.updateNavigationState ⟨some false, some false⟩ 0 300 100).prevBtn = some true
        ↔ (0 : Int) ≤ 0) ∧
    ((Gallery.updateNavigationState ⟨some false, some false⟩ 0 300 100).nextBtn = some true
        ↔ (0 : Int) ≥ 300 - 100 - 1) :=
  C3_updateNavigationState_disabled_iff ⟨some false, some false⟩ 0 300 100 rfl rfl

/-- C5 counterexample: in `wideThumbGallery` the single thumbnail's right
edge (200) is past the wrapper's right edge (100), so the claim says the
call scrolls right by 200 − 100 + 10 = 110; but the thumbnail's left edge
(−5) is also before the wrapper's left edge (0), the left-edge branch wins,
and the call scrolls by −15 instead. -/
theorem C5_counterexample :
    (Gallery.wideThumbGallery.thumbnailItems[0]?.map (fun t => t.rect.right) = some 200) ∧
    ((200 : Int) > Gallery.wideThumbGallery.wrapperRect.right) ∧
    (Gallery.ensureThumbnailVisible Gallery.wideThumbGallery 0 = some (-15)) ∧
    ((-15 : Int) ≠ 110) :=
  ⟨rfl, by decide, by decide, by decide⟩

/-- C5 (amended): for an existing thumbnail, `ensureThumbnailVisible`
scrolls by `left−containerLeft−10` when the left edge overflows; scrolls by
`right−containerRight+10` when the right edge overflows **and the left edge
does not**; and does not scroll when the thumbnail is fully inside the
container. The `Option Int` return models that at most one scroll fires. -/
theorem C5_ensureThumbnailVisible_amended
    (g : Gallery.GalleryState) (index : Nat) (t : Gallery.Thumb)
    (h : g.thumbnailItems[index]? = some t) :
    (t.rect.left < g.wrapperRect.left →
      Gallery.ensureThumbnailVisible g index = some (t.rect.left - g.wrapperRect.left - 10)) ∧
    (¬ t.rect.left < g.wrapperRect.left → t.rect.right > g.wrapperRect.right →
      Gallery.ensureThumbnailVisible g index = some (t.rect.right - g.wrapperRect.right + 10)) ∧
    (g.wrapperRect.left ≤ t.rect.left → t.rect.right ≤ g.wrapperRect.right →
      Gallery.ensureThumbnailVisible g index = none) := by
  simp only [Gallery.ensureThumbnailVisible, h]
  refine ⟨fun h1 => by rw [if_pos h1],
          fun h1 h2 => by rw [if_neg h1, if_pos h2],
          fun h1 h2 => by rw [if_neg (by omega), if_neg (by omega)]⟩

/-- Witness for C5: the second thumbnail of `twoThumbGallery` lies fully
inside the wrapper, so no scroll fires. -/
theorem C5_witness :
    Gallery.ensureThumbnailVisible Gallery.twoThumbGallery 1 = none :=
  (C5_ensureThumbnailVisible_amended Gallery.twoThumbGallery 1 ⟨false, ⟨40, 80⟩⟩
    (by decide)).2.2 (by decide) (by decide)

/-- C9 counterexample: the custom-property value "0" is numeric
(`parseInt` returns 0), yet all three constructor fields fall back to
their defaults, because `parseInt(...) || d` treats a parsed 0 as falsy. -/
theorem C9_counterexample :
    Gallery.jsParseInt "0" = some 0 ∧
    Gallery.galleryConfigOfCSS "0" "0" "0" = ⟨3, 100, 10⟩ :=
  ⟨rfl, rfl⟩

/-- C9 (amended): the defaults 3/100/10 are taken exactly when `parseInt`
of the raw property value yields NaN (property absent or non-numeric) *or
yields 0*; any other parsed integer is kept as-is. -/
theorem C9_galleryConfig_amended (perView size gap : String) :
    ((Gallery.jsParseInt perView = none ∨ Gallery.jsParseInt perView = some 0) →
      (Gallery.galleryConfigOfCSS perView size gap).thumbnailsPerView = 3) ∧
    (∀ n : Int, Gallery.jsParseInt perView = some n → n ≠ 0 →
      (Gallery.galleryConfigOfCSS perView size gap).thumbnailsPerView = n) ∧
    ((Gallery.jsParseInt size = none ∨ Gallery.jsParseInt size = some 0) →
      (Gallery.galleryConfigOfCSS perView size gap).thumbnailSize = 100) ∧
    (∀ n : Int, Gallery.jsParseInt size = some n → n ≠ 0 →
      (Gallery.galleryConfigOfCSS perView size gap).thumbnailSize = n) ∧
    ((Gallery.jsParseInt gap = none ∨ Gallery.jsParseInt gap = some 0) →
      (Gallery.galleryConfigOfCSS perView size gap).thumbnailGap = 10) ∧
    (∀ n : Int, Gallery.jsParseInt gap = some n → n ≠ 0 →
      (Gallery.galleryConfigOfCSS perView size gap).thumbnailGap = n) := by
  unfold Gallery.galleryConfigOfCSS Gallery.cssIntOr
  refine ⟨?_, ?_, ?_, ?_, ?_, ?_⟩
  · rintro (h | h) <;> simp [h]
  · intro n h hn; simp [h, hn]
  · rintro (h | h) <;> simp [h]
  · intro n h hn; simp [h, hn]
  · rintro (h | h) <;> simp [h]
  · intro n h hn; simp [h, hn]

/-- Witness for C9: an absent per-view property defaults to 3, a size of
"250px" parses to 250, a non-numeric gap defaults to 10. -/
theorem C9_witness :
    (Gallery.galleryConfigOfCSS "" "250px" "abc").thumbnailsPerView = 3 ∧
    (Gallery.galleryConfigOfCSS "" "250px" "abc").thumbnailSize = 250 ∧
    (Gallery.galleryConfigOfCSS "" "250px" "abc").thumbnailGap = 10 := by
  obtain ⟨h1, _, _, h4, h5, _⟩ := C9_galleryConfig_amended "" "250px" "abc"
  exact ⟨h1 (Or.inl rfl), h4 250 rfl (by decide), h5 (Or.inl rfl)⟩

/-- C6 counterexample: `switchMainImage(5)` on a three-thumbnail gallery
completes and stores 5 in `currentIndex`, which is not a valid index into
the thumbnail list. -/
theorem C6_counterexample :
    Gallery.switchMainImage Gallery.threeThumbGallery 5 =
      .ok (Gallery.threeThumbGalleryAfter5, none) ∧
    Gallery.threeThumbGalleryAfter5.currentIndex = 5 ∧
    Gallery.threeThumbGalleryAfter5.thumbnailItems.length = 3 ∧
    ¬ (Gallery.threeThumbGalleryAfter5.currentIndex <
        Gallery.threeThumbGalleryAfter5.thumbnailItems.length) :=
  ⟨rfl, rfl, rfl, by decide⟩

/-- C6 (amended): `switchMainImage` preserves validity of `currentIndex`
for every *in-range* argument (the only arguments the thumbnail click
handlers supply): if `currentIndex` is valid before the call and the
argument is a valid index, `currentIndex` is valid after any successful
call. -/
theorem C6_currentIndex_valid_amended
    (g : Gallery.GalleryState) (index : Nat) (g' : Gallery.GalleryState) (sc : Option Int)
    (hcur : g.currentIndex < g.thumbnailItems.length)
    (hidx : index < g.thumbnailItems.length)
    (hok : Gallery.switchMainImage g index = .ok (g', sc)) :
    g'.currentIndex < g'.thumbnailItems.length := by
  obtain ⟨hlen, hor⟩ := Gallery.switchMainImage_ok_shape g index g' sc hok
  rcases hor with hg | hci
  · subst hg; exact hcur
  · rw [hci, hlen]; exact hidx

/-- Witness for C6: switching `twoThumbGallery` to index 1 keeps
`currentIndex` valid. -/
theorem C6_witness :
    Gallery.twoThumbGalleryAfter1.currentIndex <
      Gallery.twoThumbGalleryAfter1.thumbnailItems.length :=
  C6_currentIndex_valid_amended Gallery.twoThumbGallery 1
    Gallery.twoThumbGalleryAfter1 none (by decide) (by decide) rfl

/-- C2 counterexample: three concrete failures of the claim as stated.
(a) With the main image container present but lacking a
`.product-media-container` child, and a hidden media node matching index 1,
`switchMainImage(1)` throws a TypeError (the source reads
`mainImageContent.querySelector(...)` on a null `mainImageContent`) instead
of silently doing nothing.
(b) With the inner `.product-media-constraint-wrapper, .product-media` node
absent but a zoom button present, `switchMainImage(1)` completes yet
rewrites the zoom button's `on:click` and `data-current-index` attributes
(compare the `mainImageContainer` fields before and after) — a DOM
mutation beyond the thumbnail active markers.
(c) With the main image container absent but the `.hidden-media` pool
element also absent, `switchMainImage(1)` throws on the unguarded
`this.hiddenMedia.querySelector(...)` rather than completing silently. -/
theorem C2_counterexample :
    (Gallery.switchMainImage Gallery.missingPMCGallery 1 =
      .error "TypeError: mainImageContent is null") ∧
    (Gallery.switchMainImage Gallery.missingWrapperGallery 1 =
      .ok (Gallery.missingWrapperGalleryAfter, none)) ∧
    (Gallery.missingWrapperGallery.mainImageContainer =
      some ⟨some ⟨some ⟨some "modal/open/0", some "0"⟩, none⟩⟩) ∧
    (Gallery.missingWrapperGalleryAfter.mainImageContainer =
      some ⟨some ⟨some ⟨some "modal/open/1", some "1"⟩, none⟩⟩) ∧
    (Gallery.switchMainImage Gallery.noPoolGallery 1 =
      .error "TypeError: this.hiddenMedia is null") :=
  ⟨rfl, rfl, rfl, rfl, rfl⟩

/-- C2 (amended): for `i ≠ currentIndex`, the three absence cases of the
claim behave as follows.
(1) Main image container absent and hidden-media pool present: the call
completes without throwing and performs no mutation beyond the thumbnail
active markers (and the trailing `ensureThumbnailVisible` scroll).
(2) Hidden-media pool element absent: the call throws even when the main
image container is absent (the unguarded `this.hiddenMedia` dereference).
(3) `.product-media-container` absent while the main image container is
present and a hidden node matches `i`: the call throws a TypeError.
(4) Inner `.product-media-constraint-wrapper, .product-media` node absent
(container and `.product-media-container` present, hidden node matching
`i`): the call completes without throwing and does not replace the media
content, but it is not mutation-free — a present zoom button still gets
its `on:click` rewritten by the `/open/<digits>` regex and its
`data-current-index` set to the new index; only with no zoom button does
nothing beyond the thumbnail highlight change. -/
theorem C2_switch_defensive_amended
    (g : Gallery.GalleryState) (index : Nat)
    (hne : ¬ index = g.currentIndex) :
    (∀ items : List Gallery.HiddenItem, g.hiddenMedia = some items →
      g.mainImageContainer = none →
      ∃ g' sc, Gallery.switchMainImage g index = .ok (g', sc) ∧
        g'.mainImageContainer = none ∧
        g'.hiddenMedia = g.hiddenMedia ∧
        g'.wrapperRect = g.wrapperRect ∧
        g'.currentIndex = index ∧
        g'.thumbnailItems.length = g.thumbnailItems.length ∧
        (∀ j : Nat, (g'.thumbnailItems[j]?).map Gallery.Thumb.rect
            = (g.thumbnailItems[j]?).map Gallery.Thumb.rect) ∧
        (∀ j : Nat, ¬ j = index → ¬ j = g.currentIndex →
            g'.thumbnailItems[j]? = g.thumbnailItems[j]?)) ∧
    (g.hiddenMedia = none →
      Gallery.switchMainImage g index = .error "TypeError: this.hiddenMedia is null") ∧
    (∀ (items : List Gallery.HiddenItem) (mic : Gallery.MainImage),
      g.hiddenMedia = some items → g.mainImageContainer = some mic →
      mic.pmc = none →
      (items.find? (fun h => h.mediaIndex = index)).isSome = true →
      Gallery.switchMainImage g index = .error "TypeError: mainImageContent is null") ∧
    (∀ (items : List Gallery.HiddenItem) (mic : Gallery.MainImage)
        (pmc : Gallery.PMContainer) (nme : Gallery.HiddenItem),
      g.hiddenMedia = some items → g.mainImageContainer = some mic →
      mic.pmc = some pmc → pmc.mediaContent = none →
      items.find? (fun h => h.mediaIndex = index) = some nme →
      ∃ g' sc, Gallery.switchMainImage g index = .ok (g', sc) ∧
        g'.currentIndex = index ∧
        g'.hiddenMedia = g.hiddenMedia ∧
        g'.wrapperRect = g.wrapperRect ∧
        g'.thumbnailItems.length = g.thumbnailItems.length ∧
        (∀ j : Nat, (g'.thumbnailItems[j]?).map Gallery.Thumb.rect
            = (g.thumbnailItems[j]?).map Gallery.Thumb.rect) ∧
        (∀ j : Nat, ¬ j = index → ¬ j = g.currentIndex →
            g'.thumbnailItems[j]? = g.thumbnailItems[j]?) ∧
        ∃ pmc2 : Gallery.PMContainer,
          g'.mainImageContainer = some ⟨some pmc2⟩ ∧
          pmc2.mediaContent = none ∧
          (pmc.zoomButton = none → pmc2.zoomButton = none) ∧
          (∀ zb : Gallery.ZoomButton, pmc.zoomButton = some zb →
            pmc2.zoomButton =
              some ⟨zb.onClick.map (Gallery.replaceOpen index), some (toString index)⟩)) := by
  refine ⟨?_, ?_, ?_, ?_⟩
  · intro items hhm hmic
    refine ⟨{ g with
        thumbnailItems := Gallery.modifyIdx
          (Gallery.modifyIdx g.thumbnailItems g.currentIndex (fun t => { t with active := false }))
          index (fun t => { t with active := true }),
        currentIndex := index }, _,
      Gallery.switchMainImage_no_main_container g index items hhm hmic hne,
      hmic, rfl, rfl, rfl, by simp [Gallery.modifyIdx_length], ?_, ?_⟩
    · intro j
      dsimp only
      rw [Gallery.modifyIdx_map_rect _ index (fun t => { t with active := true }) (fun t => rfl),
          Gallery.modifyIdx_map_rect _ g.currentIndex (fun t => { t with active := false }) (fun t => rfl)]
    · intro j hj1 hj2
      dsimp only
      rw [Gallery.modifyIdx_getElem, Gallery.modifyIdx_getElem, if_neg hj1, if_neg hj2]
  · intro hhm
    unfold Gallery.switchMainImage
    rw [if_neg hne]
    simp only [hhm]
  · intro items mic hhm hmic hpmc hfindsome
    obtain ⟨nme, hfind⟩ := Option.isSome_iff_exists.mp hfindsome
    unfold Gallery.switchMainImage
    rw [if_neg hne]
    simp only [hhm, hfind, hmic, hpmc]
  · intro items mic pmc nme hhm hmic hpmc hmc hfind
    cases hzb : pmc.zoomButton with
    | none =>
      have heq : Gallery.switchMainImage g index = .ok
          ({ g with
              thumbnailItems := Gallery.modifyIdx
                (Gallery.modifyIdx g.thumbnailItems g.currentIndex (fun t => { t with active := false }))
                index (fun t => { t with active := true }),
              mainImageContainer := some ⟨some pmc⟩,
              currentIndex := index },
            Gallery.ensureThumbnailVisible
              { g with
                thumbnailItems := Gallery.modifyIdx
                  (Gallery.modifyIdx g.thumbnailItems g.currentIndex (fun t => { t with active := false }))
                  index (fun t => { t with active := true }),
                mainImageContainer := some ⟨some pmc⟩,
                currentIndex := index } index) := by
        unfold Gallery.switchMainImage
        rw [if_neg hne]
        simp only [hhm, hfind, hmic, hpmc, hmc, hzb]
      refine ⟨_, _, heq, rfl, rfl, rfl, by simp [Gallery.modifyIdx_length], ?_, ?_,
        pmc, rfl, hmc, fun _ => hzb, ?_⟩
      · intro j
        dsimp only
        rw [Gallery.modifyIdx_map_rect _ index (fun t => { t with active := true }) (fun t => rfl),
            Gallery.modifyIdx_map_rect _ g.currentIndex (fun t => { t with active := false }) (fun t => rfl)]
      · intro j hj1 hj2
        dsimp only
        rw [Gallery.modifyIdx_getElem, Gallery.modifyIdx_getElem, if_neg hj1, if_neg hj2]
      · intro zb hzb'
        exact Option.noConfusion hzb'
    | some zb =>
      cases hoc : zb.onClick with
      | none =>
        have heq : Gallery.switchMainImage g index = .ok
            ({ g with
                thumbnailItems := Gallery.modifyIdx
                  (Gallery.modifyIdx g.thumbnailItems g.currentIndex (fun t => { t with active := false }))
                  index (fun t => { t with active := true }),
                mainImageContainer := some ⟨some ⟨some ⟨none, some (toString index)⟩, none⟩⟩,
                currentIndex := index },
              Gallery.ensureThumbnailVisible
                { g with
                  thumbnailItems := Gallery.modifyIdx
                    (Gallery.modifyIdx g.thumbnailItems g.currentIndex (fun t => { t with active := false }))
                    index (fun t => { t with active := true }),
                  mainImageContainer := some ⟨some ⟨some ⟨none, some (toString index)⟩, none⟩⟩,
                  currentIndex := index } index) := by
          unfold Gallery.switchMainImage
          rw [if_neg hne]
          simp only [hhm, hfind, hmic, hpmc, hmc, hzb, hoc]
        refine ⟨_, _, heq, rfl, rfl, rfl, by simp [Gallery.modifyIdx_length], ?_, ?_,
          ⟨some ⟨none, some (toString index)⟩, none⟩, rfl, rfl, ?_, ?_⟩
        · intro j
          dsimp only
          rw [Gallery.modifyIdx_map_rect _ index (fun t => { t with active := true }) (fun t => rfl),
              Gallery.modifyIdx_map_rect _ g.currentIndex (fun t => { t with active := false }) (fun t => rfl)]
        · intro j hj1 hj2
          dsimp only
          rw [Gallery.modifyIdx_getElem, Gallery.modifyIdx_getElem, if_neg hj1, if_neg hj2]
        · intro h'
          exact Option.noConfusion h'
        · intro zb' h'
          injection h' with h''
          subst h''
          simp [hoc]
      | some attr =>
        have heq : Gallery.switchMainImage g index = .ok
            ({ g with
                thumbnailItems := Gallery.modifyIdx
                  (Gallery.modifyIdx g.thumbnailItems g.currentIndex (fun t => { t with active := false }))
                  index (fun t => { t with active := true }),
                mainImageContainer :=
                  some ⟨some ⟨some ⟨some (Gallery.replaceOpen index attr), some (toString index)⟩, none⟩⟩,
                currentIndex := index },
              Gallery.ensureThumbnailVisible
                { g with
                  thumbnailItems := Gallery.modifyIdx
                    (Gallery.modifyIdx g.thumbnailItems g.currentIndex (fun t => { t with active := false }))
                    index (fun t => { t with active := true }),
                  mainImageContainer :=
                    some ⟨some ⟨some ⟨some (Gallery.replaceOpen index attr), some (toString index)⟩, none⟩⟩,
                  currentIndex := index } index) := by
          unfold Gallery.switchMainImage
          rw [if_neg hne]
          simp only [hhm, hfind, hmic, hpmc, hmc, hzb, hoc]
        refine ⟨_, _, heq, rfl, rfl, rfl, by simp [Gallery.modifyIdx_length], ?_, ?_,
          ⟨some ⟨some (Gallery.replaceOpen index attr), some (toString index)⟩, none⟩, rfl, rfl, ?_, ?_⟩
        · intro j
          dsimp only
          rw [Gallery.modifyIdx_map_rect _ index (fun t => { t with active := true }) (fun t => rfl),
              Gallery.modifyIdx_map_rect _ g.currentIndex (fun t => { t with active := false }) (fun t => rfl)]
        · intro j hj1 hj2
          dsimp only
          rw [Gallery.modifyIdx_getElem, Gallery.modifyIdx_getElem, if_neg hj1, if_neg hj2]
        · intro h'
          exact Option.noConfusion h'
        · intro zb' h'
          injection h' with h''
          subst h''
          simp [hoc]

/-- Witness for C2: every branch of the amended claim exercised at a
concrete gallery — `twoThumbGallery` (no main image container, pool
present) switches silently touching only the thumbnails; `noPoolGallery`
and `missingPMCGallery` throw; `missingWrapperGallery` succeeds without
replacing media content but rewrites the zoom button. -/
theorem C2_witness :
    (∃ g' sc, Gallery.switchMainImage Gallery.twoThumbGallery 1 = .ok (g', sc) ∧
      g'.mainImageContainer = none ∧
      g'.hiddenMedia = Gallery.twoThumbGallery.hiddenMedia ∧
      g'.wrapperRect = Gallery.twoThumbGallery.wrapperRect ∧
      g'.currentIndex = 1 ∧
      g'.thumbnailItems.length = Gallery.twoThumbGallery.thumbnailItems.length ∧
      (∀ j : Nat, (g'.thumbnailItems[j]?).map Gallery.Thumb.rect
          = (Gallery.twoThumbGallery.thumbnailItems[j]?).map Gallery.Thumb.rect) ∧
      (∀ j : Nat, ¬ j = 1 → ¬ j = Gallery.twoThumbGallery.currentIndex →
          g'.thumbnailItems[j]? = Gallery.twoThumbGallery.thumbnailItems[j]?)) ∧
    (Gallery.switchMainImage Gallery.noPoolGallery 1 =
      .error "TypeError: this.hiddenMedia is null") ∧
    (Gallery.switchMainImage Gallery.missingPMCGallery 1 =
      .error "TypeError: mainImageContent is null") ∧
    (∃ g' sc, Gallery.switchMainImage Gallery.missingWrapperGallery 1 = .ok (g', sc) ∧
      g'.currentIndex = 1 ∧
      g'.hiddenMedia = Gallery.missingWrapperGallery.hiddenMedia ∧
      g'.wrapperRect = Gallery.missingWrapperGallery.wrapperRect ∧
      g'.thumbnailItems.length = Gallery.missingWrapperGallery.thumbnailItems.length ∧
      (∀ j : Nat, (g'.thumbnailItems[j]?).map Gallery.Thumb.rect
          = (Gallery.missingWrapperGallery.thumbnailItems[j]?).map Gallery.Thumb.rect) ∧
      (∀ j : Nat, ¬ j = 1 → ¬ j = Gallery.missingWrapperGallery.currentIndex →
          g'.thumbnailItems[j]? = Gallery.missingWrapperGallery.thumbnailItems[j]?) ∧
      ∃ pmc2 : Gallery.PMContainer,
        g'.mainImageContainer = some ⟨some pmc2⟩ ∧
        pmc2.mediaContent = none ∧
        ((⟨some ⟨some "modal/open/0", some "0"⟩, none⟩ : Gallery.PMContainer).zoomButton = none →
          pmc2.zoomButton = none) ∧
        (∀ zb : Gallery.ZoomButton,
          (⟨some ⟨some "modal/open/0", some "0"⟩, none⟩ : Gallery.PMContainer).zoomButton = some zb →
          pmc2.zoomButton =
            some ⟨zb.onClick.map (Gallery.replaceOpen 1), some (toString 1)⟩)) :=
  ⟨(C2_switch_defensive_amended Gallery.twoThumbGallery 1 (by decide)).1 _ rfl rfl,
   (C2_switch_defensive_amended Gallery.noPoolGallery 1 (by decide)).2.1 rfl,
   (C2_switch_defensive_amended Gallery.missingPMCGallery 1 (by decide)).2.2.1 _ _
     rfl rfl rfl rfl,
   (C2_switch_defensive_amended Gallery.missingWrapperGallery 1 (by decide)).2.2.2 _ _ _ _
     rfl rfl rfl rfl rfl⟩

/-- C8: when the resolved details element has no summary, `open()` aborts
silently and atomically — it returns without throwing, with the state
completely unchanged (no attributes set, no scroll lock, no relocation, no
click handlers attached) and without scheduling the animation-frame
callback (the `false` flag). -/
theorem C8_open_no_summary_aborts (s : Drawer.DrawerState)
    (h : s.hasSummary = false) :
    Drawer.openSync s = .ok (s, false) := by
  simp [Drawer.openSync, h]

/-- Witness for C8 on a concrete summary-less component. -/
theorem C8_witness :
    Drawer.openSync Drawer.noSummaryState = .ok (Drawer.noSummaryState, false) :=
  C8_open_no_summary_aborts Drawer.noSummaryState rfl

/-- C10: `#close` (and the Escape keyup path, which runs exactly it) has no
guard on `isOpen`: for every state with a summary and the wrapper present —
in particular one whose details element lacks the `open` attribute — the
synchronous part clears the body overflow style, sets `aria-expanded` to
"false", removes `menu-open` from the details element and the wrapper, and
schedules the animation-end relocation/reset callback (the `some` capture
returned by `onKeyUp`). -/
theorem C10_close_unconditional (s : Drawer.DrawerState)
    (hsum : s.hasSummary = true) (hwrap : s.wrapperPresent = true) :
    ((Drawer.closeSync s).1.bodyOverflow = "" ∧
     (Drawer.closeSync s).1.ariaExpanded = "false" ∧
     (Drawer.closeSync s).1.detailsMenuOpen = false ∧
     (Drawer.closeSync s).1.wrapperMenuOpen = false) ∧
    Drawer.onKeyUp "Escape" s = ((Drawer.closeSync s).1, some (Drawer.closeSync s).2) := by
  constructor
  · simp [Drawer.closeSync, hsum, hwrap]
  · simp [Drawer.onKeyUp]

/-- Witness for C10 on the pristine closed state (details not open). -/
theorem C10_witness :
    (((Drawer.closeSync Drawer.pristineClosed).1.bodyOverflow = "" ∧
      (Drawer.closeSync Drawer.pristineClosed).1.ariaExpanded = "false" ∧
      (Drawer.closeSync Drawer.pristineClosed).1.detailsMenuOpen = false ∧
      (Drawer.closeSync Drawer.pristineClosed).1.wrapperMenuOpen = false) ∧
     Drawer.onKeyUp "Escape" Drawer.pristineClosed =
       ((Drawer.closeSync Drawer.pristineClosed).1,
         some (Drawer.closeSync Drawer.pristineClosed).2)) ∧
    Drawer.pristineClosed.detailsOpen = false :=
  ⟨C10_close_unconditional Drawer.pristineClosed rfl rfl, rfl⟩

/-- C1: from any pristine closed state (summary and wrapper present, drawer
panel with close button and backdrop inside the details element), a full
`open()`→`close()` cycle in which the animation-frame callback and both
animation-completion callbacks fired leaves the drawer panel and the
backdrop as children of the details element again, the body overflow style
empty, the `open` attribute and `menu-open` class removed, and
`aria-expanded` equal to "false". -/
theorem C1_open_close_cycle (s0 : Drawer.DrawerState)
    (hsum : s0.hasSummary = true)
    (hwrap : s0.wrapperPresent = true)
    (hdl : s0.drawerLoc = some Drawer.Loc.inDetails)
    (hbl : s0.backdropLoc = some Drawer.Loc.inDetails)
    (hcb : s0.hasCloseButton = true) :
    ∃ s1, Drawer.openFull s0 = .ok s1 ∧
      (Drawer.closeFull s1).drawerLoc = some Drawer.Loc.inDetails ∧
      (Drawer.closeFull s1).backdropLoc = some Drawer.Loc.inDetails ∧
      (Drawer.closeFull s1).bodyOverflow = "" ∧
      (Drawer.closeFull s1).detailsOpen = false ∧
      (Drawer.closeFull s1).detailsMenuOpen = false ∧
      (Drawer.closeFull s1).ariaExpanded = "false" := by
  obtain ⟨f1, f2, f3, f4, f5, f6, f7, f8, f9, f10, f11, f12, f13, f14, f15, f16⟩ := s0
  dsimp only at hsum hwrap hdl hbl hcb
  subst hsum hwrap hdl hbl hcb
  exact ⟨_, rfl, rfl, rfl, rfl, rfl, rfl, rfl⟩

/-- Witness for C1 at the concrete pristine closed state. -/
theorem C1_witness :
    ∃ s1, Drawer.openFull Drawer.pristineClosed = .ok s1 ∧
      (Drawer.closeFull s1).drawerLoc = some Drawer.Loc.inDetails ∧
      (Drawer.closeFull s1).backdropLoc = some Drawer.Loc.inDetails ∧
      (Drawer.closeFull s1).bodyOverflow = "" ∧
      (Drawer.closeFull s1).detailsOpen = false ∧
      (Drawer.closeFull s1).detailsMenuOpen = false ∧
      (Drawer.closeFull s1).ariaExpanded = "false" :=
  C1_open_close_cycle Drawer.pristineClosed rfl rfl rfl rfl rfl

/-- C4: opening twice without an intervening close attaches no duplicate
listeners: after the first `open()` the drawer has been moved out of the
details element, so the second `open()`'s `details.querySelector` finds no
drawer and skips the relocation/attachment block entirely — exactly one
backdrop-click handler and one close-button handler remain attached, and a
backdrop click fires the close handler exactly once. -/
theorem C4_open_twice_idempotent (s0 : Drawer.DrawerState)
    (hsum : s0.hasSummary = true)
    (hwrap : s0.wrapperPresent = true)
    (hdl : s0.drawerLoc = some Drawer.Loc.inDetails)
    (hbl : s0.backdropLoc = some Drawer.Loc.inDetails)
    (hcb : s0.hasCloseButton = true)
    (hbl0 : s0.backdropListeners = 0)
    (hcl0 : s0.closeListeners = 0) :
    ∃ s2, (Drawer.openFull s0).bind Drawer.openFull = .ok s2 ∧
      s2.backdropListeners = 1 ∧
      s2.closeListeners = 1 ∧
      Drawer.backdropClickFires s2 = 1 := by
  obtain ⟨f1, f2, f3, f4, f5, f6, f7, f8, f9, f10, f11, f12, f13, f14, f15, f16⟩ := s0
  dsimp only at hsum hwrap hdl hbl hcb hbl0 hcl0
  subst hsum hwrap hdl hbl hcb hbl0 hcl0
  exact ⟨_, rfl, rfl, rfl, rfl⟩

/-- Witness for C4 at the concrete pristine closed state. -/
theorem C4_witness :
    ∃ s2, (Drawer.openFull Drawer.pristineClosed).bind Drawer.openFull = .ok s2 ∧
      s2.backdropListeners = 1 ∧
      s2.closeListeners = 1 ∧
      Drawer.backdropClickFires s2 = 1 :=
  C4_open_twice_idempotent Drawer.pristineClosed rfl rfl rfl rfl rfl rfl rfl
